import Mathlib

/-!
# Passwordless e-mail authentication resolvers

A shallow embedding of the two resolver functions of the repository

* `src/backend/src/resolvers/passwordlessAuthStart/handler.js` (the Challenge Initiator),
* `src/backend/src/resolvers/passwordlessAuthLogin/handler.js` (the Login Verifier),

together with the module `src/backend/src/utils/auth0.js` they import and the two GraphQL
documents of `src/backend/src/utils/graphql.js`.

JavaScript values are embedded as a JSON-like data type.  An `await`ed promise is embedded as
its settled result, `Except Thrown JVal`: `.ok v` for a promise resolved with `v`, `.error e`
for a promise rejected with `e` (or a synchronous `throw e`).  Each handler returns a `Run`:
the ordered list of collaborator calls it made, the values it wrote with `console.error`, and
its outcome, which is either a returned envelope or an exception that left the handler.
-/

namespace Passwordless

/-! ## JavaScript values -/

/-- The largest safe integer, `Number.MAX_SAFE_INTEGER` = 2^53 - 1. -/
def maxSafeInteger : Nat := 9007199254740991

/-- JavaScript data as the handlers see it: `undefined`, `null`, booleans, numbers, strings,
arrays and plain objects.  A number is an integer in the safe range, from `-(2^53 - 1)` to
`2^53 - 1`, where the number and its decimal numeral determine each other; fractions, `NaN`,
the infinities and larger magnitudes are outside the embedding.  An object is a plain object
(its prototype is `Object.prototype`, as `JSON.parse` builds it) given by its list of own
fields, none of which is a function; where a key occurs twice the first occurrence is the
one that is read. -/
inductive JVal where
  | undefined
  | null
  | bool (b : Bool)
  | num (n : Int) (safe : n.natAbs ≤ maxSafeInteger)
  | str (s : String)
  | arr (items : List JVal)
  | obj (fields : List (String × JVal))

/-- What a `throw` or a rejected promise carries: the `TypeError` the runtime raises on a
property read of a nullish value, on a call of something that is not a function or on the
conversion to a string of an object that has no callable `toString`, or any value a
collaborator rejects with. -/
inductive Thrown where
  | typeError
  | rejected (reason : JVal)

namespace JVal

/-- `v === undefined || v === null`: the values on which a property read or a destructuring
pattern raises a `TypeError`. -/
def isNullish : JVal → Bool
  | undefined => true
  | null => true
  | _ => false

/-- The value of `v[k]` when `v` is not nullish, for a key `k` that is not a built-in property
of strings, numbers, booleans or arrays (the handlers read only `data`, `email`, `code`,
`type`, `usersList`, `count` and `id_token`): the field of a plain object, `undefined`
everywhere else. -/
def field (v : JVal) (k : String) : JVal :=
  match v with
  | obj fields => (fields.lookup k).getD undefined
  | _ => undefined

/-- JavaScript `ToBoolean`, as applied by `if (count)`. -/
def truthy : JVal → Bool
  | undefined => false
  | null => false
  | bool b => b
  | num n _ => n != 0
  | str s => s != ""
  | arr _ => true
  | obj _ => true

mutual
/-- JavaScript `ToString`, as applied by a template literal to an interpolated value.  A safe
integer prints as its decimal numeral.  An array prints through `Array.prototype.join`.  A
plain object prints through `Object.prototype.toString` unless it has an own field
`toString`: that field shadows the inherited method, is not callable, the inherited
`valueOf` returns the object itself, and the conversion raises a `TypeError`. -/
def jsToString : JVal → Except Thrown String
  | undefined => .ok "undefined"
  | null => .ok "null"
  | bool true => .ok "true"
  | bool false => .ok "false"
  | num n _ => .ok (toString n)
  | str s => .ok s
  | arr items => joinItems items
  | obj fields =>
    if (fields.lookup "toString").isSome then .error .typeError else .ok "[object Object]"
termination_by structural v => v
/-- The body of `Array.prototype.join(',')`: nullish items print as the empty string, the
other items through `ToString`, from left to right. -/
def joinItems : List JVal → Except Thrown String
  | [] => .ok ""
  | x :: rest =>
    match ((match x with
      | undefined => .ok ""
      | null => .ok ""
      | v => jsToString v) : Except Thrown String) with
    | .error e => .error e
    | .ok first =>
      match joinItems rest with
      | .error e => .error e
      | .ok others =>
        .ok (first
          ++ (match rest with
            | [] => ""
            | _ => ",")
          ++ others)
termination_by structural l => l
end

end JVal

/-- The property read `v.k` (also one level of an object destructuring pattern): a
`TypeError` on `undefined` and `null`, the field otherwise. -/
def getProp (v : JVal) (k : String) : Except Thrown JVal :=
  if v.isNullish then .error .typeError else .ok (v.field k)

/-! ## Collaborators -/

/-- The environment variables read at module load (`process.env.*`); a variable that is not
set reads as `undefined`. -/
structure ProcessEnv where
  AUTH0_DOMAIN : JVal
  AUTH0_CLIENT_ID : JVal
  AUTH0_CLIENT_SECRET : JVal
  AUTH_PROFILE_ID : JVal

/-- The HTTP client: `axios.post(url, body)` settled. -/
structure Axios where
  post : String → JVal → Except Thrown JVal

/-- The default export of `utils/auth0.js` as the handlers use it. -/
structure Auth0 where
  otpStart : JVal → JVal → Except Thrown JVal
  tokenVerify : JVal → JVal → Except Thrown JVal

/-- The `otpStart` method of `utils/auth0.js`: `send` defaults to `code` when it is
`undefined`.  An exception raised while the template literal of the URL is built rejects the
promise the `async` method returns. -/
def otpStart (env : ProcessEnv) (axios : Axios) (email send : JVal) : Except Thrown JVal :=
  let send := match send with
    | .undefined => .str "code"
    | s => s
  match env.AUTH0_DOMAIN.jsToString with
  | .error e => .error e
  | .ok domain =>
    axios.post ("https://" ++ domain ++ "/passwordless/start")
      (.obj [("connection", .str "email"),
            ("client_secret", env.AUTH0_CLIENT_SECRET),
            ("client_id", env.AUTH0_CLIENT_ID),
            ("email", email),
            ("send", send)])

/-- The `tokenVerify` method of `utils/auth0.js`.  An exception raised while the template
literal of the URL is built rejects the promise the `async` method returns. -/
def tokenVerify (env : ProcessEnv) (axios : Axios) (username otp : JVal) : Except Thrown JVal :=
  match env.AUTH0_DOMAIN.jsToString with
  | .error e => .error e
  | .ok domain =>
    axios.post ("https://" ++ domain ++ "/oauth/token")
      (.obj [("grant_type", .str "http://auth0.com/oauth/grant-type/passwordless/otp"),
            ("realm", .str "email"),
            ("client_secret", env.AUTH0_CLIENT_SECRET),
            ("client_id", env.AUTH0_CLIENT_ID),
            ("username", username),
            ("otp", otp)])

/-- The module `utils/auth0.js` over a given environment and HTTP client. -/
def auth0 (env : ProcessEnv) (axios : Axios) : Auth0 :=
  ⟨otpStart env axios, tokenVerify env axios⟩

/-- The two documents exported by `utils/graphql.js`: the mutation `userSignUpWithToken`
and the query `usersList` filtered by e-mail, selecting `count`. -/
inductive GqlDoc where
  | USER_SIGN_UP_WITH_TOKEN
  | FIND_USER_BY_EMAIL

/-- The type of `ctx.api.gqlRequest(document, variables, options)`, settled. -/
abbrev GqlRequest := GqlDoc → JVal → JVal → Except Thrown JVal

/-- The second argument of a resolver.  It may be missing, may lack `api`, may carry an
`api` whose `gqlRequest` is not a function, or may expose the platform query client. -/
inductive Ctx where
  | absent
  | noApi
  | noGqlRequest
  | client (gqlRequest : GqlRequest)

/-- Evaluation of the callee `ctx.api.gqlRequest`: a `TypeError` unless the context exposes
the query client. -/
def Ctx.resolve : Ctx → Except Thrown GqlRequest
  | .client g => .ok g
  | _ => .error .typeError

/-! ## Observable behaviour of a handler -/

/-- A call to a collaborator, with its arguments. -/
inductive Call where
  | otpStart (email send : JVal)
  | tokenVerify (username otp : JVal)
  | gqlRequest (document : GqlDoc) (vars options : JVal)

/-- The object a handler returns: `data`, and `errors` on the failure path only. -/
structure Envelope where
  data : JVal
  errors : Option (List Thrown)

/-- How an invocation ends. -/
inductive Outcome where
  | returned (envelope : Envelope)
  | threw (error : Thrown)

/-- One invocation of a handler. -/
structure Run where
  calls : List Call
  logged : List Thrown
  outcome : Outcome

/-- The envelope is well formed: `data` carries a boolean `success`, and `errors` is present
exactly when `success` is `false`. -/
def Envelope.wellFormed (e : Envelope) : Bool :=
  match e.data.field "success" with
  | .bool b => e.errors.isSome == !b
  | _ => false

/-- The `catch (error)` block shared by both handlers: log the error, return the failure
envelope. -/
def catchBlock (calls : List Call) (error : Thrown) : Run :=
  { calls := calls
    logged := [error]
    outcome := .returned { data := .obj [("success", .bool false)], errors := some [error] } }

/-! ## `passwordlessAuthStart/handler.js` -/

/-- The Challenge Initiator. -/
def passwordlessAuthStart (auth0 : Auth0) (event : JVal) : Run :=
  -- const { email, type = 'code' } = event.data
  match getProp event "data" with
  | .error e => ⟨[], [], .threw e⟩
  | .ok data =>
    if data.isNullish then ⟨[], [], .threw .typeError⟩ else
    let email := data.field "email"
    let type := match data.field "type" with
      | .undefined => .str "code"
      | t => t
    -- try { await auth0.otpStart(email, type) }
    match auth0.otpStart email type with
    | .error error => catchBlock [.otpStart email type] error
    | .ok _ =>
      { calls := [.otpStart email type]
        logged := []
        outcome := .returned { data := .obj [("success", .bool true)], errors := none } }

/-! ## `passwordlessAuthLogin/handler.js` -/

/-- The constant `noPermissions`. -/
def noPermissions : JVal := .obj [("checkPermissions", .bool false)]

/-- The call `ctx.api.gqlRequest(FIND_USER_BY_EMAIL, { email }, noPermissions)`. -/
def lookupCall (email : JVal) : Call :=
  .gqlRequest .FIND_USER_BY_EMAIL (.obj [("email", email)]) noPermissions

/-- The variables `{ authProfileId, email }` of the sign-up mutation. -/
def signUpVariables (env : ProcessEnv) (email : JVal) : JVal :=
  .obj [("authProfileId", env.AUTH_PROFILE_ID), ("email", email)]

/-- The options of the sign-up mutation: the header `authorization` built by the template
literal from `token`, the string the interpolated `auth.id_token` converts to. -/
def signUpOptions (token : String) : JVal :=
  .obj [("headers", .obj [("authorization", .str ("Bearer " ++ token))])]

/-- The call `ctx.api.gqlRequest(USER_SIGN_UP_WITH_TOKEN, { authProfileId, email }, ...)`. -/
def signUpCall (env : ProcessEnv) (email : JVal) (token : String) : Call :=
  .gqlRequest .USER_SIGN_UP_WITH_TOKEN (signUpVariables env email) (signUpOptions token)

/-- The body of the `try` block of the Login Verifier: the calls made, and either the value
assigned to `auth` when the block completes or the exception that leaves it. -/
def loginTry (auth0 : Auth0) (env : ProcessEnv) (ctx : Ctx) (email code : JVal) :
    List Call × Except Thrown JVal :=
  -- ;({ data: auth } = await auth0.tokenVerify(email, code))
  match auth0.tokenVerify email code with
  | .error e => ([.tokenVerify email code], .error e)
  | .ok response =>
  match getProp response "data" with
  | .error e => ([.tokenVerify email code], .error e)
  | .ok auth =>
  -- let { usersList: { count } } = await ctx.api.gqlRequest(FIND_USER_BY_EMAIL, ...)
  match ctx.resolve with
  | .error e => ([.tokenVerify email code], .error e)
  | .ok gqlRequest =>
  match gqlRequest .FIND_USER_BY_EMAIL (.obj [("email", email)]) noPermissions with
  | .error e => ([.tokenVerify email code, lookupCall email], .error e)
  | .ok result =>
  match getProp result "usersList" with
  | .error e => ([.tokenVerify email code, lookupCall email], .error e)
  | .ok usersList =>
  match getProp usersList "count" with
  | .error e => ([.tokenVerify email code, lookupCall email], .error e)
  | .ok count =>
  -- if (count) { await ctx.api.gqlRequest(USER_SIGN_UP_WITH_TOKEN, ...) }
  if count.truthy then
    match ctx.resolve with
    | .error e => ([.tokenVerify email code, lookupCall email], .error e)
    | .ok gqlRequest =>
    match getProp auth "id_token" with
    | .error e => ([.tokenVerify email code, lookupCall email], .error e)
    | .ok idToken =>
    match idToken.jsToString with
    | .error e => ([.tokenVerify email code, lookupCall email], .error e)
    | .ok token =>
    match gqlRequest .USER_SIGN_UP_WITH_TOKEN (signUpVariables env email)
        (signUpOptions token) with
    | .error e =>
      ([.tokenVerify email code, lookupCall email, signUpCall env email token], .error e)
    | .ok _ =>
      ([.tokenVerify email code, lookupCall email, signUpCall env email token], .ok auth)
  else
    ([.tokenVerify email code, lookupCall email], .ok auth)

/-- The Login Verifier. -/
def passwordlessAuthLogin (auth0 : Auth0) (env : ProcessEnv) (event : JVal) (ctx : Ctx) :
    Run :=
  -- const { email, code } = event.data
  match getProp event "data" with
  | .error e => ⟨[], [], .threw e⟩
  | .ok data =>
    if data.isNullish then ⟨[], [], .threw .typeError⟩ else
    let email := data.field "email"
    let code := data.field "code"
    -- let success = true
    let success := true
    match loginTry auth0 env ctx email code with
    | (calls, .error error) => catchBlock calls error
    | (calls, .ok auth) =>
      { calls := calls
        logged := []
        outcome := .returned
          { data := .obj [("success", .bool success), ("auth", auth)], errors := none } }

/-! ## Observers and sample collaborators -/

/-- The call is a `ctx.api.gqlRequest` call. -/
def Call.isGqlRequest : Call → Bool
  | .gqlRequest _ _ _ => true
  | _ => false

/-- The call is the lookup `FIND_USER_BY_EMAIL`. -/
def Call.isLookup : Call → Bool
  | .gqlRequest .FIND_USER_BY_EMAIL _ _ => true
  | _ => false

/-- The call is the create operation `USER_SIGN_UP_WITH_TOKEN`. -/
def Call.isSignUp : Call → Bool
  | .gqlRequest .USER_SIGN_UP_WITH_TOKEN _ _ => true
  | _ => false

/-- The call goes to the identity provider. -/
def Call.isAuth0 : Call → Bool
  | .otpStart _ _ => true
  | .tokenVerify _ _ => true
  | _ => false

/-- The HTTP status 200. -/
def statusOk : JVal := .num 200 (by decide)

/-- A count of no users. -/
def noUser : JVal := .num 0 (by decide)

/-- A count of one user. -/
def oneUser : JVal := .num 1 (by decide)

/-- An identity provider that accepts every request and issues the token `tok`. -/
def acceptingAuth0 : Auth0 :=
  { otpStart := fun _ _ => .ok (.obj [("status", statusOk)])
    tokenVerify := fun _ _ =>
      .ok (.obj [("status", statusOk), ("data", .obj [("id_token", .str "tok")])]) }

/-- A token that cannot be converted to a string: an object whose own field `toString` is
not a function. -/
def unprintableToken : JVal := .obj [("toString", oneUser)]

/-- An identity provider whose verify response carries the unprintable token. -/
def unprintableAuth0 : Auth0 :=
  { otpStart := fun _ _ => .ok (.obj [("status", statusOk)])
    tokenVerify := fun _ _ =>
      .ok (.obj [("status", statusOk), ("data", .obj [("id_token", unprintableToken)])]) }

/-- An identity provider that rejects every request with the reason `denied`. -/
def rejectingAuth0 : Auth0 :=
  { otpStart := fun _ _ => .error (.rejected (.str "denied"))
    tokenVerify := fun _ _ => .error (.rejected (.str "denied")) }

/-- A platform client whose lookup reports `count` and whose sign-up succeeds. -/
def countingClient (count : JVal) : GqlRequest := fun document _ _ =>
  match document with
  | .FIND_USER_BY_EMAIL => .ok (.obj [("usersList", .obj [("count", count)])])
  | .USER_SIGN_UP_WITH_TOKEN => .ok (.obj [("userSignUpWithToken", .obj [("id", .str "u1")])])

/-- A platform client whose lookup reports one user and whose sign-up is rejected. -/
def refusingClient : GqlRequest := fun document _ _ =>
  match document with
  | .FIND_USER_BY_EMAIL => .ok (.obj [("usersList", .obj [("count", oneUser)])])
  | .USER_SIGN_UP_WITH_TOKEN => .error (.rejected (.str "forbidden"))

/-- A sample environment. -/
def sampleEnv : ProcessEnv :=
  { AUTH0_DOMAIN := .str "tenant.auth0.com"
    AUTH0_CLIENT_ID := .str "cid"
    AUTH0_CLIENT_SECRET := .str "secret"
    AUTH_PROFILE_ID := .str "profile1" }

/-- The payload of a login request. -/
def loginData : JVal := .obj [("email", .str "ann@example.com"), ("code", .str "123456")]

/-- A login event. -/
def loginEvent : JVal := .obj [("data", loginData)]

/-- The payload of a start request that names no delivery mode. -/
def startData : JVal := .obj [("email", .str "ann@example.com")]

/-- A start event that names no delivery mode. -/
def startEvent : JVal := .obj [("data", startData)]

/-- An event object without a `data` payload. -/
def emptyEvent : JVal := .obj []

/-! ## Theorems -/

/-- The conversion `ToString` on each kind of value: the fixed names of `undefined`, `null`
and the booleans, decimal numerals up to the largest safe integer, strings unchanged, arrays
joined by commas with empty nullish items, `[object Object]` for a plain object, and a
`TypeError` for an object with an own field `toString`, also inside an array. -/
theorem jsToString_samples :
    JVal.undefined.jsToString = .ok "undefined"
      ∧ JVal.null.jsToString = .ok "null"
      ∧ (JVal.bool true).jsToString = .ok "true"
      ∧ (JVal.bool false).jsToString = .ok "false"
      ∧ (JVal.num 42 (by decide)).jsToString = .ok "42"
      ∧ (JVal.num (-7) (by decide)).jsToString = .ok "-7"
      ∧ (JVal.num 9007199254740991 (by decide)).jsToString = .ok "9007199254740991"
      ∧ (JVal.str "tok").jsToString = .ok "tok"
      ∧ (JVal.arr [statusOk, .null, .str "a", .arr [noUser, .undefined, oneUser]]).jsToString
          = .ok "200,,a,0,,1"
      ∧ (JVal.arr []).jsToString = .ok ""
      ∧ (JVal.obj [("id_token", .str "tok")]).jsToString = .ok "[object Object]"
      ∧ unprintableToken.jsToString = .error .typeError
      ∧ (JVal.arr [oneUser, unprintableToken]).jsToString = .error .typeError := by
  refine ⟨rfl, rfl, rfl, rfl, ?_, ?_, ?_, rfl, ?_, rfl, rfl, rfl, rfl⟩
  · exact congrArg Except.ok (by decide)
  · exact congrArg Except.ok (by decide)
  · exact congrArg Except.ok (by decide)
  · rfl

/-- The calls made by the `try` block of the Login Verifier are the verify call alone, or
the verify call and the lookup after a successful verify, or these two and the create call
after a successful lookup. -/
theorem loginTry_calls_shape (auth0 : Auth0) (env : ProcessEnv) (ctx : Ctx)
    (email code : JVal) :
    (loginTry auth0 env ctx email code).1 = [.tokenVerify email code]
      ∨ ((loginTry auth0 env ctx email code).1 = [.tokenVerify email code, lookupCall email]
          ∧ ∃ response, auth0.tokenVerify email code = .ok response)
      ∨ (∃ token : String, (loginTry auth0 env ctx email code).1
            = [.tokenVerify email code, lookupCall email, signUpCall env email token]
          ∧ (∃ response, auth0.tokenVerify email code = .ok response)
          ∧ ∃ gql result, ctx = .client gql
              ∧ gql .FIND_USER_BY_EMAIL (.obj [("email", email)]) noPermissions
                  = .ok result) := by
  unfold loginTry
  cases hverify : auth0.tokenVerify email code with
  | error e => simp [*]
  | ok response =>
    cases hauth : getProp response "data" with
    | error e => simp [*]
    | ok auth =>
      cases ctx with
      | absent => simp [Ctx.resolve, *]
      | noApi => simp [Ctx.resolve, *]
      | noGqlRequest => simp [Ctx.resolve, *]
      | client gql =>
        cases hlookup : gql .FIND_USER_BY_EMAIL (.obj [("email", email)]) noPermissions with
        | error e => simp [Ctx.resolve, *]
        | ok result =>
          cases hlist : getProp result "usersList" with
          | error e => simp [Ctx.resolve, *]
          | ok usersList =>
            cases hcount : getProp usersList "count" with
            | error e => simp [Ctx.resolve, *]
            | ok count =>
              cases htruthy : count.truthy with
              | false => simp [Ctx.resolve, *]
              | true =>
                cases htoken : getProp auth "id_token" with
                | error e => simp [Ctx.resolve, *]
                | ok idToken =>
                  cases hstring : idToken.jsToString with
                  | error e => simp [Ctx.resolve, *]
                  | ok token =>
                    right; right
                    refine ⟨token, ?_, ⟨response, rfl⟩, gql, result, rfl, hlookup⟩
                    cases hcreate : gql .USER_SIGN_UP_WITH_TOKEN (signUpVariables env email)
                        (signUpOptions token) with
                    | error e =>
                      simp [Ctx.resolve, *]
                    | ok created =>
                      simp [Ctx.resolve, *]

/-- The Login Verifier makes no call at all when it cannot unpack `event.data`, and
otherwise exactly the calls of its `try` block. -/
theorem login_calls_cases (auth0 : Auth0) (env : ProcessEnv) (event : JVal) (ctx : Ctx) :
    (passwordlessAuthLogin auth0 env event ctx).calls = []
      ∨ (passwordlessAuthLogin auth0 env event ctx).calls
        = (loginTry auth0 env ctx ((event.field "data").field "email")
            ((event.field "data").field "code")).1 := by
  unfold passwordlessAuthLogin getProp
  cases hev : event.isNullish with
  | true => simp
  | false =>
    cases hd : (event.field "data").isNullish with
    | true => simp [hd]
    | false =>
      right
      simp only [hd, Bool.false_eq_true, if_false]
      rcases loginTry auth0 env ctx ((event.field "data").field "email")
          ((event.field "data").field "code") with ⟨calls, e | auth⟩
      · rfl
      · rfl

/-- C1: when `auth0.tokenVerify` fails with an error `e`, the Login Verifier makes no
`ctx.api.gqlRequest` call at all (neither the lookup nor the create) and returns the failure
envelope with `success = false` and `errors = [e]`. -/
theorem login_verify_failure_short_circuits (auth0 : Auth0) (env : ProcessEnv)
    (event : JVal) (ctx : Ctx) (data : JVal) (e : Thrown)
    (hdata : getProp event "data" = .ok data) (hobj : data.isNullish = false)
    (hverify : auth0.tokenVerify (data.field "email") (data.field "code") = .error e) :
    (passwordlessAuthLogin auth0 env event ctx).calls
        = [.tokenVerify (data.field "email") (data.field "code")]
      ∧ (passwordlessAuthLogin auth0 env event ctx).calls.countP Call.isGqlRequest = 0
      ∧ (passwordlessAuthLogin auth0 env event ctx).outcome
        = .returned { data := .obj [("success", .bool false)], errors := some [e] } := by
  simp [passwordlessAuthLogin, loginTry, catchBlock, hdata, hobj, hverify, Call.isGqlRequest]

/-- Witness of C1 on a rejecting identity provider. -/
theorem login_verify_failure_short_circuits_witness :
    (passwordlessAuthLogin rejectingAuth0 sampleEnv loginEvent (.client (countingClient oneUser))).calls
        = [.tokenVerify (.str "ann@example.com") (.str "123456")]
      ∧ (passwordlessAuthLogin rejectingAuth0 sampleEnv loginEvent
          (.client (countingClient oneUser))).calls.countP Call.isGqlRequest = 0
      ∧ (passwordlessAuthLogin rejectingAuth0 sampleEnv loginEvent
          (.client (countingClient oneUser))).outcome
        = .returned { data := .obj [("success", .bool false)],
                      errors := some [.rejected (.str "denied")] } :=
  login_verify_failure_short_circuits rejectingAuth0 sampleEnv loginEvent
    (.client (countingClient oneUser)) loginData (.rejected (.str "denied")) rfl rfl rfl

/-- C2: when the verify call succeeds with response data `auth`, the lookup reports a count
`n ≥ 1` and the create call succeeds, the Login Verifier invokes `USER_SIGN_UP_WITH_TOKEN`
exactly once, with the variables `{authProfileId, email}` and the header
`authorization = "Bearer " ++ token`, and returns `success = true`.  Here `token` is the
string the template literal obtains from `auth.id_token`: the token itself when it is a
string, which is what the identity provider issues. -/
theorem login_count_positive_signs_up_once (auth0 : Auth0) (env : ProcessEnv)
    (event : JVal) (gql : GqlRequest)
    (data response auth result usersList idToken created : JVal) (token : String) (n : Int)
    (safe : n.natAbs ≤ maxSafeInteger)
    (hdata : getProp event "data" = .ok data) (hobj : data.isNullish = false)
    (hverify : auth0.tokenVerify (data.field "email") (data.field "code") = .ok response)
    (hauth : getProp response "data" = .ok auth)
    (hlookup : gql .FIND_USER_BY_EMAIL (.obj [("email", data.field "email")])
        (.obj [("checkPermissions", .bool false)]) = .ok result)
    (hlist : getProp result "usersList" = .ok usersList)
    (hcount : getProp usersList "count" = .ok (.num n safe)) (hn : 1 ≤ n)
    (htoken : getProp auth "id_token" = .ok idToken)
    (hstring : idToken.jsToString = .ok token)
    (hcreate : gql .USER_SIGN_UP_WITH_TOKEN
        (.obj [("authProfileId", env.AUTH_PROFILE_ID), ("email", data.field "email")])
        (.obj [("headers", .obj [("authorization", .str ("Bearer " ++ token))])])
        = .ok created) :
    (passwordlessAuthLogin auth0 env event (.client gql)).calls
        = [.tokenVerify (data.field "email") (data.field "code"),
           .gqlRequest .FIND_USER_BY_EMAIL (.obj [("email", data.field "email")])
             (.obj [("checkPermissions", .bool false)]),
           .gqlRequest .USER_SIGN_UP_WITH_TOKEN
             (.obj [("authProfileId", env.AUTH_PROFILE_ID), ("email", data.field "email")])
             (.obj [("headers", .obj [("authorization", .str ("Bearer " ++ token))])])]
      ∧ (passwordlessAuthLogin auth0 env event (.client gql)).calls.countP Call.isSignUp = 1
      ∧ (passwordlessAuthLogin auth0 env event (.client gql)).outcome
        = .returned { data := .obj [("success", .bool true), ("auth", auth)],
                      errors := none }
      ∧ (∀ t : String, auth.field "id_token" = .str t → token = t) := by
  have hne : n ≠ 0 := by omega
  have hpin : ∀ t : String, auth.field "id_token" = .str t → token = t := by
    intro t ht
    have hid : idToken = .str t := by
      unfold getProp at htoken
      split at htoken
      · cases htoken
      · rw [ht] at htoken
        cases htoken
        rfl
    rw [hid] at hstring
    simp only [JVal.jsToString, Except.ok.injEq] at hstring
    exact hstring.symm
  refine ⟨?_, ?_, ?_, hpin⟩ <;>
  simp [passwordlessAuthLogin, loginTry, Ctx.resolve, lookupCall, signUpCall, signUpVariables,
    signUpOptions, noPermissions, JVal.truthy, Call.isSignUp, hdata, hobj, hverify, hauth,
    hlookup, hlist, hcount, htoken, hstring, hcreate, hne]

/-- Witness of C2: the lookup reports one user and the sign-up carries `Bearer tok`. -/
theorem login_count_positive_signs_up_once_witness :
    (passwordlessAuthLogin acceptingAuth0 sampleEnv loginEvent
        (.client (countingClient oneUser))).calls
        = [.tokenVerify (.str "ann@example.com") (.str "123456"),
           .gqlRequest .FIND_USER_BY_EMAIL (.obj [("email", .str "ann@example.com")])
             (.obj [("checkPermissions", .bool false)]),
           .gqlRequest .USER_SIGN_UP_WITH_TOKEN
             (.obj [("authProfileId", .str "profile1"), ("email", .str "ann@example.com")])
             (.obj [("headers", .obj [("authorization", .str "Bearer tok")])])]
      ∧ (passwordlessAuthLogin acceptingAuth0 sampleEnv loginEvent
          (.client (countingClient oneUser))).calls.countP Call.isSignUp = 1
      ∧ (passwordlessAuthLogin acceptingAuth0 sampleEnv loginEvent
          (.client (countingClient oneUser))).outcome
        = .returned { data := .obj [("success", .bool true),
                                    ("auth", .obj [("id_token", .str "tok")])],
                      errors := none }
      ∧ (∀ t : String, (JVal.obj [("id_token", .str "tok")]).field "id_token" = .str t →
          "tok" = t) :=
  login_count_positive_signs_up_once acceptingAuth0 sampleEnv loginEvent
    (countingClient oneUser) loginData
    (.obj [("status", statusOk), ("data", .obj [("id_token", .str "tok")])])
    (.obj [("id_token", .str "tok")]) (.obj [("usersList", .obj [("count", oneUser)])])
    (.obj [("count", oneUser)]) (.str "tok")
    (.obj [("userSignUpWithToken", .obj [("id", .str "u1")])]) "tok" 1 (by decide)
    rfl rfl rfl rfl rfl rfl rfl (by decide) rfl rfl rfl

/-- C3: when the verify call succeeds with response data `auth` and the lookup reports
`count = 0`, the Login Verifier does not invoke the create operation and returns
`success = true` with `data.auth = auth`. -/
theorem login_count_zero_skips_sign_up (auth0 : Auth0) (env : ProcessEnv)
    (event : JVal) (gql : GqlRequest) (data response auth result usersList : JVal)
    (hdata : getProp event "data" = .ok data) (hobj : data.isNullish = false)
    (hverify : auth0.tokenVerify (data.field "email") (data.field "code") = .ok response)
    (hauth : getProp response "data" = .ok auth)
    (hlookup : gql .FIND_USER_BY_EMAIL (.obj [("email", data.field "email")])
        (.obj [("checkPermissions", .bool false)]) = .ok result)
    (hlist : getProp result "usersList" = .ok usersList)
    (hcount : getProp usersList "count" = .ok (.num 0 (by decide))) :
    (passwordlessAuthLogin auth0 env event (.client gql)).calls.countP Call.isSignUp = 0
      ∧ (passwordlessAuthLogin auth0 env event (.client gql)).calls
        = [.tokenVerify (data.field "email") (data.field "code"),
           .gqlRequest .FIND_USER_BY_EMAIL (.obj [("email", data.field "email")])
             (.obj [("checkPermissions", .bool false)])]
      ∧ (passwordlessAuthLogin auth0 env event (.client gql)).outcome
        = .returned { data := .obj [("success", .bool true), ("auth", auth)],
                      errors := none }
      ∧ (JVal.obj [("success", .bool true), ("auth", auth)]).field "auth" = auth := by
  refine ⟨?_, ?_, ?_, rfl⟩ <;>
  simp [passwordlessAuthLogin, loginTry, Ctx.resolve, lookupCall, noPermissions, JVal.truthy,
    Call.isSignUp, hdata, hobj, hverify, hauth, hlookup, hlist, hcount]

/-- Witness of C3: the lookup reports no user. -/
theorem login_count_zero_skips_sign_up_witness :
    (passwordlessAuthLogin acceptingAuth0 sampleEnv loginEvent
        (.client (countingClient noUser))).calls.countP Call.isSignUp = 0
      ∧ (passwordlessAuthLogin acceptingAuth0 sampleEnv loginEvent
          (.client (countingClient noUser))).calls
        = [.tokenVerify (.str "ann@example.com") (.str "123456"),
           .gqlRequest .FIND_USER_BY_EMAIL (.obj [("email", .str "ann@example.com")])
             (.obj [("checkPermissions", .bool false)])]
      ∧ (passwordlessAuthLogin acceptingAuth0 sampleEnv loginEvent
          (.client (countingClient noUser))).outcome
        = .returned { data := .obj [("success", .bool true),
                                    ("auth", .obj [("id_token", .str "tok")])],
                      errors := none }
      ∧ (JVal.obj [("success", .bool true),
            ("auth", .obj [("id_token", .str "tok")])]).field "auth"
          = .obj [("id_token", .str "tok")] :=
  login_count_zero_skips_sign_up acceptingAuth0 sampleEnv loginEvent (countingClient noUser)
    loginData (.obj [("status", statusOk), ("data", .obj [("id_token", .str "tok")])])
    (.obj [("id_token", .str "tok")]) (.obj [("usersList", .obj [("count", noUser)])])
    (.obj [("count", noUser)]) rfl rfl rfl rfl rfl rfl rfl

/-- C4: the code at the two sides of the documented rule "if the user does not exist, create
the user".  With no matching user (`count = 0`) the Login Verifier makes no sign-up call,
and with one matching user (`count = 1`) it makes the sign-up call: creation happens exactly
when the user already exists. -/
theorem login_creates_only_when_user_exists :
    (passwordlessAuthLogin acceptingAuth0 sampleEnv loginEvent
        (.client (countingClient noUser))).calls.countP Call.isSignUp = 0
      ∧ (passwordlessAuthLogin acceptingAuth0 sampleEnv loginEvent
          (.client (countingClient oneUser))).calls.countP Call.isSignUp = 1 := by
  constructor <;> rfl

/-- C5, as stated, fails: on an event object without a `data` payload (and an absent
context) both entry points raise a `TypeError` while unpacking `event.data`, before their
`try` block, so no envelope is returned and the exception reaches the caller. -/
theorem handlers_throw_on_event_without_data :
    (passwordlessAuthLogin acceptingAuth0 sampleEnv emptyEvent .absent).outcome
        = .threw .typeError
      ∧ (passwordlessAuthStart acceptingAuth0 emptyEvent).outcome = .threw .typeError
      ∧ (¬ ∃ envelope, (passwordlessAuthLogin acceptingAuth0 sampleEnv emptyEvent
            .absent).outcome = .returned envelope)
      ∧ (¬ ∃ envelope, (passwordlessAuthStart acceptingAuth0 emptyEvent).outcome
            = .returned envelope) := by
  refine ⟨rfl, rfl, ?_, ?_⟩
  · rintro ⟨envelope, h⟩
    have h2 : (passwordlessAuthLogin acceptingAuth0 sampleEnv emptyEvent .absent).outcome
        = .threw .typeError := rfl
    rw [h2] at h
    cases h
  · rintro ⟨envelope, h⟩
    have h2 : (passwordlessAuthStart acceptingAuth0 emptyEvent).outcome
        = .threw .typeError := rfl
    rw [h2] at h
    cases h

/-- C5, amended: for every event whose `data` payload is present (neither `undefined` nor
`null`), every context (an absent one included) and every behaviour of the collaborators,
both entry points return a well-formed envelope; no exception leaves them. -/
theorem handlers_return_well_formed_envelope (auth0 : Auth0) (env : ProcessEnv)
    (event : JVal) (ctx : Ctx) (data : JVal)
    (hdata : getProp event "data" = .ok data) (hobj : data.isNullish = false) :
    (∃ envelope, (passwordlessAuthStart auth0 event).outcome = .returned envelope
        ∧ envelope.wellFormed = true)
      ∧ (∃ envelope, (passwordlessAuthLogin auth0 env event ctx).outcome = .returned envelope
        ∧ envelope.wellFormed = true) := by
  constructor
  · simp only [passwordlessAuthStart, hdata, hobj, Bool.false_eq_true, if_false]
    split
    · exact ⟨_, rfl, rfl⟩
    · exact ⟨_, rfl, rfl⟩
  · simp only [passwordlessAuthLogin, hdata, hobj, Bool.false_eq_true, if_false]
    rcases loginTry auth0 env ctx (data.field "email") (data.field "code") with
      ⟨calls, e | auth⟩
    · exact ⟨_, rfl, rfl⟩
    · exact ⟨_, rfl, rfl⟩

/-- Witness of the amended C5: a login event handled without any context. -/
theorem handlers_return_well_formed_envelope_witness :
    (∃ envelope, (passwordlessAuthStart acceptingAuth0 loginEvent).outcome
        = .returned envelope ∧ envelope.wellFormed = true)
      ∧ (∃ envelope, (passwordlessAuthLogin acceptingAuth0 sampleEnv loginEvent
          .absent).outcome = .returned envelope ∧ envelope.wellFormed = true) :=
  handlers_return_well_formed_envelope acceptingAuth0 sampleEnv loginEvent .absent loginData
    rfl rfl

/-- C6: every exception `e` raised inside the Login Verifier's three-step sequence is caught
and turned into the envelope with `success = false` and `errors = [e]`, and no later step
runs.  The raising points are, in order: the verify call; the unpacking of its response; the
evaluation of the callee `ctx.api.gqlRequest`; the lookup call; the unpacking of
`usersList`, then of `count`, from its result; the evaluation of `auth.id_token` for the
create call; the conversion of that token to a string by the template literal; the create
call. -/
theorem login_exception_caught_once (auth0 : Auth0) (env : ProcessEnv)
    (event : JVal) (ctx : Ctx) (data : JVal)
    (hdata : getProp event "data" = .ok data) (hobj : data.isNullish = false) :
    (∀ e, auth0.tokenVerify (data.field "email") (data.field "code") = .error e →
        (passwordlessAuthLogin auth0 env event ctx).outcome
            = .returned { data := .obj [("success", .bool false)], errors := some [e] }
          ∧ (passwordlessAuthLogin auth0 env event ctx).calls
            = [.tokenVerify (data.field "email") (data.field "code")])
      ∧ (∀ response e,
          auth0.tokenVerify (data.field "email") (data.field "code") = .ok response →
          getProp response "data" = .error e →
        (passwordlessAuthLogin auth0 env event ctx).outcome
            = .returned { data := .obj [("success", .bool false)], errors := some [e] }
          ∧ (passwordlessAuthLogin auth0 env event ctx).calls
            = [.tokenVerify (data.field "email") (data.field "code")])
      ∧ (∀ response auth e,
          auth0.tokenVerify (data.field "email") (data.field "code") = .ok response →
          getProp response "data" = .ok auth →
          ctx.resolve = .error e →
        (passwordlessAuthLogin auth0 env event ctx).outcome
            = .returned { data := .obj [("success", .bool false)], errors := some [e] }
          ∧ (passwordlessAuthLogin auth0 env event ctx).calls
            = [.tokenVerify (data.field "email") (data.field "code")])
      ∧ (∀ response auth gql e,
          auth0.tokenVerify (data.field "email") (data.field "code") = .ok response →
          getProp response "data" = .ok auth →
          ctx = .client gql →
          gql .FIND_USER_BY_EMAIL (.obj [("email", data.field "email")])
            (.obj [("checkPermissions", .bool false)]) = .error e →
        (passwordlessAuthLogin auth0 env event ctx).outcome
            = .returned { data := .obj [("success", .bool false)], errors := some [e] }
          ∧ (passwordlessAuthLogin auth0 env event ctx).calls
            = [.tokenVerify (data.field "email") (data.field "code"),
               lookupCall (data.field "email")])
      ∧ (∀ response auth gql result e,
          auth0.tokenVerify (data.field "email") (data.field "code") = .ok response →
          getProp response "data" = .ok auth →
          ctx = .client gql →
          gql .FIND_USER_BY_EMAIL (.obj [("email", data.field "email")])
            (.obj [("checkPermissions", .bool false)]) = .ok result →
          getProp result "usersList" = .error e →
        (passwordlessAuthLogin auth0 env event ctx).outcome
            = .returned { data := .obj [("success", .bool false)], errors := some [e] }
          ∧ (passwordlessAuthLogin auth0 env event ctx).calls
            = [.tokenVerify (data.field "email") (data.field "code"),
               lookupCall (data.field "email")])
      ∧ (∀ response auth gql result usersList e,
          auth0.tokenVerify (data.field "email") (data.field "code") = .ok response →
          getProp response "data" = .ok auth →
          ctx = .client gql →
          gql .FIND_USER_BY_EMAIL (.obj [("email", data.field "email")])
            (.obj [("checkPermissions", .bool false)]) = .ok result →
          getProp result "usersList" = .ok usersList →
          getProp usersList "count" = .error e →
        (passwordlessAuthLogin auth0 env event ctx).outcome
            = .returned { data := .obj [("success", .bool false)], errors := some [e] }
          ∧ (passwordlessAuthLogin auth0 env event ctx).calls
            = [.tokenVerify (data.field "email") (data.field "code"),
               lookupCall (data.field "email")])
      ∧ (∀ response auth gql result usersList count e,
          auth0.tokenVerify (data.field "email") (data.field "code") = .ok response →
          getProp response "data" = .ok auth →
          ctx = .client gql →
          gql .FIND_USER_BY_EMAIL (.obj [("email", data.field "email")])
            (.obj [("checkPermissions", .bool false)]) = .ok result →
          getProp result "usersList" = .ok usersList →
          getProp usersList "count" = .ok count →
          count.truthy = true →
          getProp auth "id_token" = .error e →
        (passwordlessAuthLogin auth0 env event ctx).outcome
            = .returned { data := .obj [("success", .bool false)], errors := some [e] }
          ∧ (passwordlessAuthLogin auth0 env event ctx).calls
            = [.tokenVerify (data.field "email") (data.field "code"),
               lookupCall (data.field "email")])
      ∧ (∀ response auth gql result usersList count idToken e,
          auth0.tokenVerify (data.field "email") (data.field "code") = .ok response →
          getProp response "data" = .ok auth →
          ctx = .client gql →
          gql .FIND_USER_BY_EMAIL (.obj [("email", data.field "email")])
            (.obj [("checkPermissions", .bool false)]) = .ok result →
          getProp result "usersList" = .ok usersList →
          getProp usersList "count" = .ok count →
          count.truthy = true →
          getProp auth "id_token" = .ok idToken →
          idToken.jsToString = .error e →
        (passwordlessAuthLogin auth0 env event ctx).outcome
            = .returned { data := .obj [("success", .bool false)], errors := some [e] }
          ∧ (passwordlessAuthLogin auth0 env event ctx).calls
            = [.tokenVerify (data.field "email") (data.field "code"),
               lookupCall (data.field "email")])
      ∧ (∀ response auth gql result usersList count idToken (token : String) e,
          auth0.tokenVerify (data.field "email") (data.field "code") = .ok response →
          getProp response "data" = .ok auth →
          ctx = .client gql →
          gql .FIND_USER_BY_EMAIL (.obj [("email", data.field "email")])
            (.obj [("checkPermissions", .bool false)]) = .ok result →
          getProp result "usersList" = .ok usersList →
          getProp usersList "count" = .ok count →
          count.truthy = true →
          getProp auth "id_token" = .ok idToken →
          idToken.jsToString = .ok token →
          gql .USER_SIGN_UP_WITH_TOKEN
            (.obj [("authProfileId", env.AUTH_PROFILE_ID), ("email", data.field "email")])
            (.obj [("headers", .obj [("authorization", .str ("Bearer " ++ token))])])
            = .error e →
        (passwordlessAuthLogin auth0 env event ctx).outcome
            = .returned { data := .obj [("success", .bool false)], errors := some [e] }
          ∧ (passwordlessAuthLogin auth0 env event ctx).calls
            = [.tokenVerify (data.field "email") (data.field "code"),
               lookupCall (data.field "email"),
               signUpCall env (data.field "email") token]) := by
  refine ⟨?_, ?_, ?_, ?_, ?_, ?_, ?_, ?_, ?_⟩
  · intro e hverify
    simp [passwordlessAuthLogin, loginTry, catchBlock, hdata, hobj, hverify]
  · intro response e hverify hauth
    simp [passwordlessAuthLogin, loginTry, catchBlock, hdata, hobj, hverify, hauth]
  · intro response auth e hverify hauth hctx
    simp [passwordlessAuthLogin, loginTry, catchBlock, hdata, hobj, hverify, hauth, hctx]
  · intro response auth gql e hverify hauth hctx hlookup
    subst hctx
    simp [passwordlessAuthLogin, loginTry, catchBlock, Ctx.resolve, noPermissions, hdata, hobj,
      hverify, hauth, hlookup]
  · intro response auth gql result e hverify hauth hctx hlookup hlist
    subst hctx
    simp [passwordlessAuthLogin, loginTry, catchBlock, Ctx.resolve, noPermissions, hdata, hobj,
      hverify, hauth, hlookup, hlist]
  · intro response auth gql result usersList e hverify hauth hctx hlookup hlist hcount
    subst hctx
    simp [passwordlessAuthLogin, loginTry, catchBlock, Ctx.resolve, noPermissions, hdata, hobj,
      hverify, hauth, hlookup, hlist, hcount]
  · intro response auth gql result usersList count e hverify hauth hctx hlookup hlist hcount
      htruthy htoken
    subst hctx
    simp [passwordlessAuthLogin, loginTry, catchBlock, Ctx.resolve, noPermissions, hdata, hobj,
      hverify, hauth, hlookup, hlist, hcount, htruthy, htoken]
  · intro response auth gql result usersList count idToken e hverify hauth hctx hlookup hlist
      hcount htruthy htoken hstring
    subst hctx
    simp [passwordlessAuthLogin, loginTry, catchBlock, Ctx.resolve, noPermissions, hdata, hobj,
      hverify, hauth, hlookup, hlist, hcount, htruthy, htoken, hstring]
  · intro response auth gql result usersList count idToken token e hverify hauth hctx hlookup
      hlist hcount htruthy htoken hstring hcreate
    subst hctx
    simp [passwordlessAuthLogin, loginTry, catchBlock, Ctx.resolve, noPermissions,
      signUpVariables, signUpOptions, hdata, hobj, hverify, hauth, hlookup, hlist, hcount,
      htruthy, htoken, hstring, hcreate]

/-- Witness of C6: a sign-up rejected by the platform after a successful verify and lookup
is the single entry of `errors`, and the three calls were made in order; a token that the
template literal cannot convert gives the `TypeError` as the single entry, and the sign-up
call is not made. -/
theorem login_exception_caught_once_witness :
    ((passwordlessAuthLogin acceptingAuth0 sampleEnv loginEvent
          (.client refusingClient)).outcome
        = .returned { data := .obj [("success", .bool false)],
                      errors := some [.rejected (.str "forbidden")] }
      ∧ (passwordlessAuthLogin acceptingAuth0 sampleEnv loginEvent
          (.client refusingClient)).calls
        = [.tokenVerify (.str "ann@example.com") (.str "123456"),
           lookupCall (.str "ann@example.com"),
           signUpCall sampleEnv (.str "ann@example.com") "tok"])
      ∧ ((passwordlessAuthLogin unprintableAuth0 sampleEnv loginEvent
          (.client refusingClient)).outcome
        = .returned { data := .obj [("success", .bool false)], errors := some [.typeError] }
      ∧ (passwordlessAuthLogin unprintableAuth0 sampleEnv loginEvent
          (.client refusingClient)).calls
        = [.tokenVerify (.str "ann@example.com") (.str "123456"),
           lookupCall (.str "ann@example.com")]) :=
  ⟨(login_exception_caught_once acceptingAuth0 sampleEnv loginEvent (.client refusingClient)
      loginData rfl rfl).2.2.2.2.2.2.2.2
      (.obj [("status", statusOk), ("data", .obj [("id_token", .str "tok")])])
      (.obj [("id_token", .str "tok")]) refusingClient
      (.obj [("usersList", .obj [("count", oneUser)])]) (.obj [("count", oneUser)]) oneUser
      (.str "tok") "tok" (.rejected (.str "forbidden")) rfl rfl rfl rfl rfl rfl rfl rfl rfl rfl,
   (login_exception_caught_once unprintableAuth0 sampleEnv loginEvent (.client refusingClient)
      loginData rfl rfl).2.2.2.2.2.2.2.1
      (.obj [("status", statusOk), ("data", .obj [("id_token", unprintableToken)])])
      (.obj [("id_token", unprintableToken)]) refusingClient
      (.obj [("usersList", .obj [("count", oneUser)])]) (.obj [("count", oneUser)]) oneUser
      unprintableToken .typeError rfl rfl rfl rfl rfl rfl rfl rfl rfl⟩

/-- C7: when the identity provider's start call succeeds, the Challenge Initiator makes
exactly one call, `auth0.otpStart(email, mode)`, where `mode` is `event.data.type`, or
`code` when `event.data.type` is not given, and returns `success = true`; and
`auth0.otpStart` posts that e-mail and that mode, as `email` and `send`, to the start
endpoint of the configured domain (and rejects, without posting, when the domain cannot be
converted to a string). -/
theorem start_forwards_one_call (auth0 : Auth0) (event data mode response : JVal)
    (hdata : getProp event "data" = .ok data) (hobj : data.isNullish = false)
    (hmode : (data.field "type" = .undefined ∧ mode = .str "code")
      ∨ (data.field "type" ≠ .undefined ∧ mode = data.field "type"))
    (hstart : auth0.otpStart (data.field "email") mode = .ok response) :
    (passwordlessAuthStart auth0 event).calls = [.otpStart (data.field "email") mode]
      ∧ (passwordlessAuthStart auth0 event).calls.length = 1
      ∧ (passwordlessAuthStart auth0 event).outcome
        = .returned { data := .obj [("success", .bool true)], errors := none }
      ∧ ∀ (env : ProcessEnv) (axios : Axios),
          (∀ domain : String, env.AUTH0_DOMAIN.jsToString = .ok domain →
            otpStart env axios (data.field "email") mode
              = axios.post ("https://" ++ domain ++ "/passwordless/start")
                  (.obj [("connection", .str "email"),
                         ("client_secret", env.AUTH0_CLIENT_SECRET),
                         ("client_id", env.AUTH0_CLIENT_ID),
                         ("email", data.field "email"),
                         ("send", mode)]))
          ∧ (∀ e, env.AUTH0_DOMAIN.jsToString = .error e →
            otpStart env axios (data.field "email") mode = .error e) := by
  have hm : (match data.field "type" with
      | .undefined => JVal.str "code"
      | t => t) = mode := by
    rcases hmode with ⟨h1, h2⟩ | ⟨h1, h2⟩
    · rw [h1, h2]
    · rw [h2]
      generalize data.field "type" = t at h1
      cases t <;> simp at h1 ⊢
  have hne : mode ≠ .undefined := by
    rcases hmode with ⟨_, h2⟩ | ⟨h1, h2⟩
    · rw [h2]
      intro h
      cases h
    · rw [h2]
      exact h1
  refine ⟨?_, ?_, ?_, ?_⟩
  · simp [passwordlessAuthStart, hdata, hobj, hm, hstart]
  · simp [passwordlessAuthStart, hdata, hobj, hm, hstart]
  · simp [passwordlessAuthStart, hdata, hobj, hm, hstart]
  · intro env axios
    constructor
    · intro domain hdomain
      unfold otpStart
      rw [hdomain]
      cases mode <;> first | rfl | exact absurd rfl hne
    · intro e hdomain
      unfold otpStart
      rw [hdomain]

/-- Witness of C7: no delivery mode is given and `code` is forwarded. -/
theorem start_forwards_one_call_witness :
    (passwordlessAuthStart acceptingAuth0 startEvent).calls
        = [.otpStart (startData.field "email") (.str "code")]
      ∧ (passwordlessAuthStart acceptingAuth0 startEvent).calls.length = 1
      ∧ (passwordlessAuthStart acceptingAuth0 startEvent).outcome
        = .returned { data := .obj [("success", .bool true)], errors := none }
      ∧ ∀ (env : ProcessEnv) (axios : Axios),
          (∀ domain : String, env.AUTH0_DOMAIN.jsToString = .ok domain →
            otpStart env axios (startData.field "email") (.str "code")
              = axios.post ("https://" ++ domain ++ "/passwordless/start")
                  (.obj [("connection", .str "email"),
                         ("client_secret", env.AUTH0_CLIENT_SECRET),
                         ("client_id", env.AUTH0_CLIENT_ID),
                         ("email", startData.field "email"),
                         ("send", .str "code")]))
          ∧ (∀ e, env.AUTH0_DOMAIN.jsToString = .error e →
            otpStart env axios (startData.field "email") (.str "code") = .error e) :=
  start_forwards_one_call acceptingAuth0 startEvent startData (.str "code")
    (.obj [("status", statusOk)]) rfl rfl (Or.inl ⟨rfl, rfl⟩) rfl

/-- C8: when the identity provider's start call fails with an error `e`, the Challenge
Initiator returns `success = false` with `errors = [e]`; the start call is its only call,
made once. -/
theorem start_failure_is_reported (auth0 : Auth0) (event data mode : JVal) (e : Thrown)
    (hdata : getProp event "data" = .ok data) (hobj : data.isNullish = false)
    (hmode : (data.field "type" = .undefined ∧ mode = .str "code")
      ∨ (data.field "type" ≠ .undefined ∧ mode = data.field "type"))
    (hstart : auth0.otpStart (data.field "email") mode = .error e) :
    (passwordlessAuthStart auth0 event).outcome
        = .returned { data := .obj [("success", .bool false)], errors := some [e] }
      ∧ (passwordlessAuthStart auth0 event).calls = [.otpStart (data.field "email") mode]
      ∧ (passwordlessAuthStart auth0 event).calls.length = 1 := by
  have hm : (match data.field "type" with
      | .undefined => JVal.str "code"
      | t => t) = mode := by
    rcases hmode with ⟨h1, h2⟩ | ⟨h1, h2⟩
    · rw [h1, h2]
    · rw [h2]
      generalize data.field "type" = t at h1
      cases t <;> simp at h1 ⊢
  simp [passwordlessAuthStart, catchBlock, hdata, hobj, hm, hstart]

/-- Witness of C8 on a rejecting identity provider. -/
theorem start_failure_is_reported_witness :
    (passwordlessAuthStart rejectingAuth0 startEvent).outcome
        = .returned { data := .obj [("success", .bool false)],
                      errors := some [.rejected (.str "denied")] }
      ∧ (passwordlessAuthStart rejectingAuth0 startEvent).calls
        = [.otpStart (startData.field "email") (.str "code")]
      ∧ (passwordlessAuthStart rejectingAuth0 startEvent).calls.length = 1 :=
  start_failure_is_reported rejectingAuth0 startEvent startData (.str "code")
    (.rejected (.str "denied")) rfl rfl (Or.inl ⟨rfl, rfl⟩) rfl

/-- C9: for every input and every behaviour of the collaborators, the calls of one Login
Verifier invocation are a prefix of verify, lookup, create: the lookup is made only after a
successful verify, the create only after a successful lookup, each at most once, both
platform calls carry the e-mail of the request, and the lookup is made with
`{checkPermissions: false}`. -/
theorem login_calls_follow_sequence (auth0 : Auth0) (env : ProcessEnv) (event : JVal)
    (ctx : Ctx) :
    (∃ token : String, (passwordlessAuthLogin auth0 env event ctx).calls <+:
        [.tokenVerify ((event.field "data").field "email") ((event.field "data").field "code"),
         .gqlRequest .FIND_USER_BY_EMAIL (.obj [("email", (event.field "data").field "email")])
           (.obj [("checkPermissions", .bool false)]),
         .gqlRequest .USER_SIGN_UP_WITH_TOKEN
           (.obj [("authProfileId", env.AUTH_PROFILE_ID),
                  ("email", (event.field "data").field "email")])
           (.obj [("headers", .obj [("authorization", .str ("Bearer " ++ token))])])])
      ∧ ((passwordlessAuthLogin auth0 env event ctx).calls.any Call.isLookup = true →
          ∃ response, auth0.tokenVerify ((event.field "data").field "email")
            ((event.field "data").field "code") = .ok response)
      ∧ ((passwordlessAuthLogin auth0 env event ctx).calls.any Call.isSignUp = true →
          (∃ response, auth0.tokenVerify ((event.field "data").field "email")
            ((event.field "data").field "code") = .ok response)
          ∧ ∃ gql result, ctx = .client gql
              ∧ gql .FIND_USER_BY_EMAIL (.obj [("email", (event.field "data").field "email")])
                  (.obj [("checkPermissions", .bool false)]) = .ok result)
      ∧ (passwordlessAuthLogin auth0 env event ctx).calls.countP Call.isAuth0 ≤ 1
      ∧ (passwordlessAuthLogin auth0 env event ctx).calls.countP Call.isLookup ≤ 1
      ∧ (passwordlessAuthLogin auth0 env event ctx).calls.countP Call.isSignUp ≤ 1 := by
  rcases login_calls_cases auth0 env event ctx with h | h
  · rw [h]
    exact ⟨⟨"", List.nil_prefix⟩, by simp, by simp, by simp, by simp, by simp⟩
  · rw [h]
    rcases loginTry_calls_shape auth0 env ctx ((event.field "data").field "email")
        ((event.field "data").field "code") with h1 | ⟨h2, hv⟩ | ⟨token, h3, hv, hl⟩
    · rw [h1]
      exact ⟨⟨"", _, rfl⟩, by simp [Call.isLookup], by simp [Call.isSignUp],
        by simp [Call.isAuth0], by simp [Call.isLookup], by simp [Call.isSignUp]⟩
    · rw [h2]
      exact ⟨⟨"", _, rfl⟩, fun _ => hv, by simp [Call.isSignUp, lookupCall],
        by simp [Call.isAuth0, lookupCall], by simp [Call.isLookup, lookupCall],
        by simp [Call.isSignUp, lookupCall]⟩
    · rw [h3]
      exact ⟨⟨token, [], rfl⟩, fun _ => hv, fun _ => ⟨hv, hl⟩,
        by simp [Call.isAuth0, lookupCall, signUpCall],
        by simp [Call.isLookup, lookupCall, signUpCall],
        by simp [Call.isSignUp, lookupCall, signUpCall]⟩

/-- C10: whenever the Login Verifier returns the failure envelope (one that carries
`errors`, or whose `success` is `false`), its `data` is exactly `{success: false}`: it has no
`auth` field, so the verification result and its `id_token` are not returned, also when the
verify call succeeded and the lookup or the create failed afterwards. -/
theorem login_failure_envelope_has_no_auth (auth0 : Auth0) (env : ProcessEnv) (event : JVal)
    (ctx : Ctx) (envelope : Envelope)
    (hret : (passwordlessAuthLogin auth0 env event ctx).outcome = .returned envelope)
    (hfail : envelope.errors.isSome = true ∨ envelope.data.field "success" = .bool false) :
    envelope.data = .obj [("success", .bool false)]
      ∧ envelope.data.field "auth" = .undefined := by
  have key : envelope.data = .obj [("success", .bool false)] := by
    unfold passwordlessAuthLogin getProp at hret
    cases hev : event.isNullish with
    | true => simp [hev] at hret
    | false =>
      cases hd : (event.field "data").isNullish with
      | true => simp [hev, hd] at hret
      | false =>
        simp only [hev, hd, Bool.false_eq_true, if_false] at hret
        generalize loginTry auth0 env ctx ((event.field "data").field "email")
            ((event.field "data").field "code") = r at hret
        rcases r with ⟨calls, e | auth⟩
        · simp only [catchBlock, Outcome.returned.injEq] at hret
          rw [← hret]
        · simp only [Outcome.returned.injEq] at hret
          rw [← hret] at hfail
          rcases hfail with hf | hf
          · simp at hf
          · have hs : (JVal.obj [("success", .bool true), ("auth", auth)]).field "success"
                = .bool true := rfl
            rw [hs] at hf
            cases hf
  exact ⟨key, by rw [key]; rfl⟩

/-- Witness of C10: the verify call issued `tok`, the sign-up was rejected, and the returned
data is exactly the object with `success = false`. -/
theorem login_failure_envelope_has_no_auth_witness :
    (passwordlessAuthLogin acceptingAuth0 sampleEnv loginEvent (.client refusingClient)).outcome
        = .returned { data := .obj [("success", .bool false)],
                      errors := some [.rejected (.str "forbidden")] }
      ∧ (JVal.obj [("success", .bool false)]) = .obj [("success", .bool false)]
      ∧ (JVal.obj [("success", .bool false)]).field "auth" = .undefined :=
  ⟨rfl, login_failure_envelope_has_no_auth acceptingAuth0 sampleEnv loginEvent
    (.client refusingClient)
    { data := .obj [("success", .bool false)], errors := some [.rejected (.str "forbidden")] }
    rfl (Or.inl rfl)⟩

end Passwordless
